import Mathlib

/-!
Verification of the image-generation web application: a shallow embedding of
its request builder, response processing, image persistence, gallery metadata
store, and texture-service endpoints, with theorems about the properties the
design document states.
-/

/-- A JSON value, as produced by parsing a provider response body. -/
inductive Json where
  | str (s : String)
  | num (n : Int)
  | bool (b : Bool)
  | null
  | arr (elems : List Json)
  | obj (fields : List (String × Json))

/-- Field lookup in a JSON object (first matching key). Models Python
dict indexing and the `in` test on parsed JSON objects. -/
def lookupField : List (String × Json) → String → Option Json
  | [], _ => none
  | (k, v) :: rest, key => if k = key then some v else lookupField rest key

/-- Python truthiness of a JSON value: empty strings, zero, false, null and
empty containers are falsy; everything else is truthy. -/
def pyTruthy : Json → Bool
  | .str s => !s.isEmpty
  | .num n => n != 0
  | .bool b => b
  | .null => false
  | .arr l => !l.isEmpty
  | .obj l => !l.isEmpty

/-- Rendering of a JSON value inside a Python f-string, used only to build
diagnostic messages. Container renderings are abbreviated. -/
def pyStr : Json → String
  | .str s => s
  | .num n => toString n
  | .bool true => "True"
  | .bool false => "False"
  | .null => "None"
  | .arr _ => "[...]"
  | .obj _ => "\x7b...\x7d"

/-- The value of one base64 alphabet character, `none` for characters outside
the alphabet (which the Python decoder discards before decoding). -/
def sextet (c : Char) : Option Nat :=
  if 'A' ≤ c ∧ c ≤ 'Z' then some (c.toNat - 65)
  else if 'a' ≤ c ∧ c ≤ 'z' then some (c.toNat - 71)
  else if '0' ≤ c ∧ c ≤ '9' then some (c.toNat + 4)
  else if c = '+' then some 62
  else if c = '/' then some 63
  else none

/-- Decode a list of sextet values into bytes, four sextets to three bytes; a
trailing group of one sextet is a padding error. -/
def decodeQuads : List Nat → Option (List Nat)
  | [] => some []
  | [_] => none
  | [a, b] => some [a * 4 + b / 16]
  | [a, b, c] => some [a * 4 + b / 16, b % 16 * 16 + c / 4]
  | a :: b :: c :: d :: rest =>
    (decodeQuads rest).map fun tl =>
      (a * 4 + b / 16) :: (b % 16 * 16 + c / 4) :: (c % 4 * 64 + d) :: tl

/-- Standard base64 decoding as performed by the Python standard library with
default options: characters outside the alphabet and distinct from the
padding character are discarded, the remaining length must be a multiple of
four, and the data sextets are then decoded in groups. -/
def b64decode (s : String) : Option (List Nat) :=
  let kept := s.data.filter (fun c => (sextet c).isSome || c = '=')
  if kept.length % 4 = 0 then decodeQuads (kept.filterMap sextet)
  else none

/-- `hasInfix needle hay` is true when `needle` occurs contiguously inside
`hay`. Models the Python substring test `needle in hay`. -/
def hasInfix (needle : List Char) : List Char → Bool
  | [] => needle.isEmpty
  | a :: t => needle.isPrefixOf (a :: t) || hasInfix needle t

/-- A list is a prefix of itself followed by anything. -/
theorem isPrefixOf_append_self (n post : List Char) :
    n.isPrefixOf (n ++ post) = true := by
  induction n with
  | nil => simp
  | cons a as ih => simp [List.isPrefixOf_cons₂, ih]

/-- A contiguous occurrence makes `hasInfix` true. -/
theorem hasInfix_append (n pre post : List Char) :
    hasInfix n (pre ++ n ++ post) = true := by
  induction pre with
  | nil =>
    cases h : n ++ post with
    | nil =>
      have hn : n = [] := by
        cases n with
        | nil => rfl
        | cons a as => simp at h
      have hp : post = [] := by simpa [hn] using h
      simp [hn, hp, hasInfix]
    | cons b bs =>
      simp only [List.nil_append, h, hasInfix]
      rw [← h, isPrefixOf_append_self]
      simp
  | cons a pre ih =>
    have hstep : hasInfix n ((a :: pre) ++ n ++ post)
        = (n.isPrefixOf ((a :: pre) ++ n ++ post) || hasInfix n (pre ++ n ++ post)) := rfl
    rw [hstep, ih, Bool.or_true]

/-- A haystack equal to some decomposition around the needle contains it. -/
theorem hasInfix_of_eq (n hay pre post : List Char) (h : hay = pre ++ n ++ post) :
    hasInfix n hay = true := by
  rw [h]
  exact hasInfix_append n pre post

/-!
## Request Builder (main application)

Embeds the payload construction of the generation function: quality table,
aspect-ratio table, guidance-scale table, style phrase table, and the
conditional style-phrase rewriting of the prompt.
-/

/-- Quality table: number of diffusion steps per quality setting; unknown
quality values leave the steps parameter unset. -/
def qualitySteps (quality : String) : Option Nat :=
  if quality = "standard" then some 30
  else if quality = "hd" then some 50
  else none

/-- Aspect-ratio table mapping the six recognized ratios to an exact
(height, width) pair; any other string falls back to the 1024 square. -/
def aspectDimensions (ratio : String) : Nat × Nat :=
  if ratio = "1:1" then (1024, 1024)
  else if ratio = "16:9" then (576, 1024)
  else if ratio = "9:16" then (1024, 576)
  else if ratio = "4:3" then (768, 1024)
  else if ratio = "3:4" then (1024, 768)
  else if ratio = "21:9" then (448, 1024)
  else (1024, 1024)

/-- Guidance-scale table for the fourteen recognized style presets. -/
def guidanceScales (style : String) : Option ℚ :=
  if style = "photographic" then some 6.0
  else if style = "digital-art" then some 7.5
  else if style = "cinematic" then some 7.0
  else if style = "anime" then some 7.0
  else if style = "fantasy-art" then some 8.0
  else if style = "neon-punk" then some 8.5
  else if style = "enhance" then some 5.5
  else if style = "comic-book" then some 7.5
  else if style = "isometric" then some 7.0
  else if style = "low-poly" then some 7.0
  else if style = "origami" then some 7.5
  else if style = "line-art" then some 7.0
  else if style = "watercolor" then some 6.5
  else if style = "pixel-art" then some 8.0
  else none

/-- Style phrase table: the twelve styles whose phrase may be appended to the
prompt. -/
def stylePrefixes (style : String) : Option String :=
  if style = "digital-art" then some "digital art style"
  else if style = "cinematic" then some "cinematic lighting"
  else if style = "anime" then some "anime style"
  else if style = "fantasy-art" then some "fantasy art"
  else if style = "neon-punk" then some "neon cyberpunk style"
  else if style = "comic-book" then some "comic book style"
  else if style = "isometric" then some "isometric view"
  else if style = "low-poly" then some "low poly 3D"
  else if style = "origami" then some "origami style"
  else if style = "line-art" then some "line art"
  else if style = "watercolor" then some "watercolor painting"
  else if style = "pixel-art" then some "pixel art"
  else none

/-- ASCII lowercasing of a string into its character list; models the Python
lower() call on the strings involved. -/
def lowerChars (s : String) : List Char :=
  s.data.map Char.toLower

/-- Case-insensitive substring test: models the Python check
needle.lower() in hay.lower(). -/
def pyInStr (needle hay : String) : Bool :=
  hasInfix (lowerChars needle) (lowerChars hay)

/-- Prompt rewriting: when the style has a known guidance scale and a known
style phrase that is not already contained (case-insensitively) in the
prompt, the phrase is appended after a comma; otherwise the prompt is kept. -/
def applyStyleToPrompt (style_preset : Option String) (prompt : String) : String :=
  match style_preset with
  | some s =>
    match guidanceScales s with
    | some _ =>
      match stylePrefixes s with
      | some phrase => if pyInStr phrase prompt then prompt else prompt ++ ", " ++ phrase
      | none => prompt
    | none => prompt
  | none => prompt

/-- Guidance scale chosen for a style: the table value when the style is
recognized, the 7.0 default otherwise (including when no style is given). -/
def styleGuidance (style_preset : Option String) : ℚ :=
  match style_preset with
  | some s => (guidanceScales s).getD 7.0
  | none => 7.0

/-- The generation payload assembled by the request builder: the single
instance (prompt and optional negative prompt) together with the parameters
map. -/
structure GenPayload where
  prompt : String
  negative_prompt : Option String
  sampleCount : Nat
  steps : Option Nat
  height : Nat
  width : Nat
  guidance_scale : ℚ
deriving DecidableEq, Repr

/-- The request builder: deterministic assembly of the generation payload
from the form inputs via the static tables, mirroring the source order of
operations. An empty negative prompt is dropped (Python truthiness test). -/
def buildPayload (prompt : String) (negative_prompt : Option String)
    (style_preset : Option String) (aspect_ratio quality : String) : GenPayload :=
  { prompt := applyStyleToPrompt style_preset prompt
  , negative_prompt :=
      match negative_prompt with
      | some s => if s.isEmpty then none else some s
      | none => none
  , sampleCount := 1
  , steps := qualitySteps quality
  , height := (aspectDimensions aspect_ratio).1
  , width := (aspectDimensions aspect_ratio).2
  , guidance_scale := styleGuidance style_preset }

/-!
## Response processing (main application)

Embeds the handling of a parsed success body: the missing-predictions check
with its safety-filter branch, the single-path image extraction, and the
decode-and-save step with its separate failure message.
-/

/-- Whether the parsed body carries a truthy predictions value; the source
tests for the key being absent or its value being falsy. -/
def predictionsTruthy (body : List (String × Json)) : Bool :=
  match lookupField body "predictions" with
  | some v => pyTruthy v
  | none => false

/-- The main application extraction: only the path through the first
prediction object and its direct base64 field is attempted; any other layout
raises and is reported as a parse failure. -/
def extractAppImageData (body : List (String × Json)) : Option Json :=
  match lookupField body "predictions" with
  | some (Json.arr (Json.obj fields :: _)) => lookupField fields "bytesBase64Encoded"
  | _ => none

/-- Outcome of processing a parsed generation response: the decoded image
bytes on success, or an error message. -/
inductive GenResult where
  | ok (bytes : List Nat)
  | err (msg : String)
deriving Repr

/-- Processing of the parsed success body of the generation call: a body
without truthy predictions is answered with the safety-filter message when
the safety attributes mark it filtered, and with the generic
missing-predictions message otherwise; a safety attributes value that is not
an object raises and surfaces as the unexpected-error message. With truthy
predictions the single extraction path is tried, then standard base64
decoding; extraction and decoding failures carry distinct messages. -/
def processGenerateResponse (body : List (String × Json)) : GenResult :=
  if predictionsTruthy body = false then
    match lookupField body "safetyAttributes" with
    | some (Json.obj sa) =>
      if pyTruthy ((lookupField sa "filtered").getD (Json.bool false)) then
        GenResult.err ("Generation blocked by safety filters (Reason: "
          ++ pyStr ((lookupField sa "reason").getD (Json.str "Unknown"))
          ++ "). Please modify your prompt.")
      else GenResult.err "API did not return predictions. Check logs."
    | some _ => GenResult.err "An unexpected server error occurred during generation"
    | none => GenResult.err "API did not return predictions. Check logs."
  else
    match extractAppImageData body with
    | none => GenResult.err "Failed to parse expected image data from API response."
    | some (Json.str s) =>
      match b64decode s with
      | some bytes => GenResult.ok bytes
      | none => GenResult.err "Failed to decode or save generated image"
    | some _ => GenResult.err "Failed to decode or save generated image"

/-- Substring test on strings: whether the pattern occurs in the message. -/
def strContains (hay pat : String) : Bool :=
  hasInfix pat.data hay.data

/-- Whether a generation result is the distinguished safety-filter failure:
an error whose message contains the safety-filter phrase. -/
def isSafetyFilterError (r : GenResult) : Bool :=
  match r with
  | GenResult.err m => strContains m "blocked by safety filters"
  | GenResult.ok _ => false

/-!
## Response extraction (texture service)

Embeds the tolerant extraction of the texture generator: several possible
layouts of the first prediction are tried inside one guarded block, and the
decode-and-process step is a separate block with its own failure report.
-/

/-- Failure categories of the texture-service pipeline, one per handler in
the source: an error field inside the body, the extraction failure, the
image decode/processing failure, and an exception escaping uncaught. -/
inductive TexErr where
  | apiError
  | shapeError
  | processError
  | uncaughtError
deriving DecidableEq, Repr

/-- Tolerant extraction of the first prediction image payload: a direct
base64 field, the alternative direct field, a nested field under the image
object, or the prediction itself; a prediction object with none of the known
fields, or a nested image object without the base64 field, is passed through
unchanged. A missing, falsy, or non-indexable predictions value raises a
lookup error that the source converts to the extraction failure. -/
def extractImageData (body : List (String × Json)) : Except TexErr Json :=
  match lookupField body "predictions" with
  | some preds =>
    if pyTruthy preds then
      match preds with
      | Json.arr (p :: _) =>
        match p with
        | Json.obj fields =>
          match lookupField fields "bytesBase64Encoded" with
          | some v => Except.ok v
          | none =>
            match lookupField fields "imageBytes" with
            | some v => Except.ok v
            | none =>
              match lookupField fields "image" with
              | some (Json.obj imgFields) =>
                Except.ok ((lookupField imgFields "bytesBase64Encoded").getD Json.null)
              | _ => Except.ok p
        | _ => Except.ok p
      | Json.str s =>
        match s.data with
        | c :: _ => Except.ok (Json.str (String.mk [c]))
        | [] => Except.error TexErr.shapeError
      | _ => Except.error TexErr.shapeError
    else Except.error TexErr.shapeError
  | none => Except.error TexErr.shapeError

/-- The decode-and-process step of the texture service: the extracted value
must be a string that base64-decodes; any other value or a failed decode is
the processing failure of the dedicated handler. -/
def decodeTexture (v : Json) : Except TexErr (List Nat) :=
  match v with
  | Json.str s =>
    match b64decode s with
    | some bytes => Except.ok bytes
    | none => Except.error TexErr.processError
  | _ => Except.error TexErr.processError

/-- The full post-parse pipeline of the texture service: the in-body error
check, then extraction, then decoding. An error field that is not an object
raises an uncaught attribute error in the source. -/
def texturePipeline (body : List (String × Json)) : Except TexErr (List Nat) :=
  match lookupField body "error" with
  | some (Json.obj _) => Except.error TexErr.apiError
  | some _ => Except.error TexErr.uncaughtError
  | none => extractImageData body >>= decodeTexture

/-!
## Texture service endpoint and request body

Embeds the request body the texture service sends (an empty parameters
object) and the endpoint that validates inputs and rewrites the prompt, in
both of the two near-duplicate backend scripts.
-/

/-- The request body of the texture-service generation call: one instance
holding the prompt, and an empty parameters object (the sample-count and
aspect-ratio parameters appear only in comments in the source). -/
def textureRequestBody (prompt : String) : List (String × Json) :=
  [("instances", Json.arr [Json.obj [("prompt", Json.str prompt)]]),
   ("parameters", Json.obj [])]

/-- Lookup of a key inside the parameters object of a request body. -/
def bodyParamLookup (body : List (String × Json)) (key : String) : Option Json :=
  match lookupField body "parameters" with
  | some (Json.obj ps) => lookupField ps key
  | _ => none

/-- The fixed phrase the texture generator appends to every caller prompt. -/
def textureSuffix : String :=
  ", seamless tileable texture, full rectangular format, no rounded corners, no borders, no black spaces, no gaps, filling entire frame, high-resolution, flat texture"

/-- Prompt enhancement of the texture generator script. -/
def enhanceTexturePrompt (prompt : String) : String :=
  prompt ++ textureSuffix

/-- Filename validation of the texture endpoints: the name must end in the
png extension and contain none of the path-breaking characters. -/
def validTextureFilename (fn : String) : Bool :=
  (".png".data.isSuffixOf fn.data)
    && fn.data.all (fun c => !(['<', '>', ':', '"', '/', '\\', '|', '?', '*'].contains c))

/-- Response of a texture endpoint before the outbound call: a rejected
request, or a request to send with the transmitted prompt and output path. -/
inductive TexResponse where
  | badRequest (code : Nat)
  | sendRequest (sentPrompt : String) (outputFilepath : String)
deriving Repr

/-- The texture-generator endpoint: missing prompt or filename and invalid
filenames are rejected with status 400; otherwise the enhanced prompt and
the joined output path are handed to the generation call. Filepaths are
modelled relative to the repository root. -/
def generateTexture (prompt output_filename : String) : TexResponse :=
  if prompt.isEmpty || output_filename.isEmpty then TexResponse.badRequest 400
  else if !validTextureFilename output_filename then TexResponse.badRequest 400
  else TexResponse.sendRequest (enhanceTexturePrompt prompt)
    ("static/generated/" ++ output_filename)

/-- The earlier near-duplicate endpoint: identical validation, but the
caller prompt is handed to the generation call verbatim. -/
def generateTextureCodePy (prompt output_filename : String) : TexResponse :=
  if prompt.isEmpty || output_filename.isEmpty then TexResponse.badRequest 400
  else if !validTextureFilename output_filename then TexResponse.badRequest 400
  else TexResponse.sendRequest prompt ("static/generated/" ++ output_filename)

/-!
## Image persistence

Embeds the write-to-disk step: opening a path for writing creates the file
when absent and truncates and replaces its content when present. The store
of the generated-images directory is an association of path to content.
-/

/-- The files of the output directory: an association of path to bytes. -/
abbrev FileStore := List (String × List Nat)

/-- Whether a path is present in the store. -/
def hasFile (store : FileStore) (name : String) : Bool :=
  store.any (fun e => e.1 = name)

/-- Writing bytes to a path: replaces the content of an existing file, or
appends a new file. Models opening for binary write followed by a full
write, and the image save call of the texture path. -/
def writeFile (store : FileStore) (name : String) (bytes : List Nat) : FileStore :=
  if hasFile store name then
    store.map (fun e => if e.1 = name then (name, bytes) else e)
  else store ++ [(name, bytes)]

/-!
## Gallery metadata store and deletion endpoint

Embeds the deletion endpoint: the empty-name rejection, the existence check,
the file removal, and the metadata rewrite that keeps every entry whose
filename differs from the deleted one. A missing or corrupt metadata
document is skipped silently.
-/

/-- State owned by the gallery: the files of the output directory and the
metadata document, absent-or-corrupt modelled as none. Entries are the JSON
objects of the document. -/
structure GalleryState where
  files : List String
  metadata : Option (List (List (String × Json)))

/-- Whether a metadata entry survives deletion of the given filename: kept
unless its filename field is exactly that string (a missing or non-string
field never equals the string, so such entries are kept). -/
def keepEntry (filename : String) (item : List (String × Json)) : Bool :=
  match lookupField item "filename" with
  | some (Json.str s) => s != filename
  | _ => true

/-- The deletion endpoint over the gallery state, for the sanitized
filename: an empty name is rejected with 400, a name without a file with
404 leaving the state unchanged; otherwise the file is removed and, when the
metadata document is present and parseable, it is rewritten keeping exactly
the entries whose filename differs. -/
def deleteImage (st : GalleryState) (filename : String) : GalleryState × Nat :=
  if filename.isEmpty then (st, 400)
  else if !st.files.contains filename then (st, 404)
  else ({ files := st.files.erase filename
        , metadata := st.metadata.map (fun md => md.filter (keepEntry filename)) }, 200)

/-!
## Texture image normalization

Embeds the flattening step of the texture persister: every pixel of the
decoded image, in RGBA form, is composited onto an opaque white background,
and the result is converted to RGB before being re-encoded. Pixel channels
are bytes; the compositing formula is that of the imaging library.
-/

/-- One RGBA pixel with byte-valued channels. -/
structure Pixel where
  r : Nat
  g : Nat
  b : Nat
  a : Nat
deriving DecidableEq, Repr

/-- The opaque white background pixel. -/
def whitePixel : Pixel := ⟨255, 255, 255, 255⟩

/-- Alpha compositing of a source pixel over a destination pixel, following
the imaging library: the blended destination weight, the combined alpha, and
the weighted colour channels. -/
def compositePixel (dst src : Pixel) : Pixel :=
  let blend := dst.a * (255 - src.a) / 255
  let outA := src.a + blend
  if outA = 0 then ⟨0, 0, 0, 0⟩
  else ⟨(src.r * src.a + dst.r * blend) / outA,
        (src.g * src.a + dst.g * blend) / outA,
        (src.b * src.a + dst.b * blend) / outA,
        outA⟩

/-- Compositing the whole image onto the freshly created opaque white
background of the same size. -/
def compositeOnWhite (img : List (List Pixel)) : List (List Pixel) :=
  img.map (fun row => row.map (fun p => compositePixel whitePixel p))

/-- Conversion to RGB: the alpha channel is dropped; a reload of the
re-encoded RGB image yields fully opaque pixels. -/
def toRGB (p : Pixel) : Pixel :=
  ⟨p.r, p.g, p.b, 255⟩

/-- The full normalization of the texture persister: flatten onto white,
then convert to RGB for re-encoding. -/
def finalTextureImage (img : List (List Pixel)) : List (List Pixel) :=
  (compositeOnWhite img).map (fun row => row.map toRGB)

/-- Whether every pixel of an image has byte-valued alpha. -/
def validAlphaImage (img : List (List Pixel)) : Bool :=
  img.all (fun row => row.all (fun p => p.a ≤ 255))

/-- Whether every pixel of an image is fully opaque. -/
def allOpaque (img : List (List Pixel)) : Bool :=
  img.all (fun row => row.all (fun p => p.a = 255))

/-!
## Theorems
-/

set_option maxRecDepth 8192

set_option maxHeartbeats 1000000

/-- Splitting a list by a predicate preserves its length. -/
theorem length_filter_split {α : Type} (p : α → Bool) (l : List α) :
    l.length = (l.filter p).length + (l.filter (fun a => !p a)).length := by
  induction l with
  | nil => rfl
  | cons a t ih => cases h : p a <;> simp [List.filter_cons, h, ih] <;> omega

/-- Every style with a phrase in the phrase table also has a guidance scale
in the guidance table. -/
theorem guidance_of_style_phrase {s phrase : String}
    (h : stylePrefixes s = some phrase) : ∃ g, guidanceScales s = some g := by
  unfold stylePrefixes at h
  split_ifs at h with h1 h2 h3 h4 h5 h6 h7 h8 h9 h10 h11 h12
  · exact h1 ▸ ⟨7.5, rfl⟩
  · exact h2 ▸ ⟨7.0, rfl⟩
  · exact h3 ▸ ⟨7.0, rfl⟩
  · exact h4 ▸ ⟨8.0, rfl⟩
  · exact h5 ▸ ⟨8.5, rfl⟩
  · exact h6 ▸ ⟨7.5, rfl⟩
  · exact h7 ▸ ⟨7.0, rfl⟩
  · exact h8 ▸ ⟨7.0, rfl⟩
  · exact h9 ▸ ⟨7.5, rfl⟩
  · exact h10 ▸ ⟨7.0, rfl⟩
  · exact h11 ▸ ⟨6.5, rfl⟩
  · exact h12 ▸ ⟨8.0, rfl⟩

/-- C1: for each of the six recognized aspect ratios the request builder
sets the documented height and width pair, and for every other ratio string
it sets the 1024 by 1024 square; the builder is total, so no input fails. -/
theorem c1_aspect_dimensions (p : String) (np sp : Option String) (q r : String) :
    ((buildPayload p np sp "1:1" q).height = 1024 ∧ (buildPayload p np sp "1:1" q).width = 1024) ∧
    ((buildPayload p np sp "16:9" q).height = 576 ∧ (buildPayload p np sp "16:9" q).width = 1024) ∧
    ((buildPayload p np sp "9:16" q).height = 1024 ∧ (buildPayload p np sp "9:16" q).width = 576) ∧
    ((buildPayload p np sp "4:3" q).height = 768 ∧ (buildPayload p np sp "4:3" q).width = 1024) ∧
    ((buildPayload p np sp "3:4" q).height = 1024 ∧ (buildPayload p np sp "3:4" q).width = 768) ∧
    ((buildPayload p np sp "21:9" q).height = 448 ∧ (buildPayload p np sp "21:9" q).width = 1024) ∧
    (r ≠ "1:1" → r ≠ "16:9" → r ≠ "9:16" → r ≠ "4:3" → r ≠ "3:4" → r ≠ "21:9" →
      (buildPayload p np sp r q).height = 1024 ∧ (buildPayload p np sp r q).width = 1024) := by
  refine ⟨⟨rfl, rfl⟩, ⟨rfl, rfl⟩, ⟨rfl, rfl⟩, ⟨rfl, rfl⟩, ⟨rfl, rfl⟩, ⟨rfl, rfl⟩, ?_⟩
  intro h1 h2 h3 h4 h5 h6
  constructor <;> simp [buildPayload, aspectDimensions, h1, h2, h3, h4, h5, h6]

/-- C1 witness: an unrecognized ratio string falls back to the square. -/
theorem c1_aspect_dimensions_witness :
    (buildPayload "x" none none "7:5" "standard").height = 1024 ∧
    (buildPayload "x" none none "7:5" "standard").width = 1024 :=
  (c1_aspect_dimensions "x" none none "standard" "7:5").2.2.2.2.2.2
    (by decide) (by decide) (by decide) (by decide) (by decide) (by decide)

/-- C5: for a style with a known phrase, the phrase is appended exactly when
it is not already contained case-insensitively, and rebuilding the prompt a
second time changes nothing. -/
theorem c5_style_phrase_idempotent (p s phrase : String)
    (h : stylePrefixes s = some phrase) :
    (pyInStr phrase p = true → applyStyleToPrompt (some s) p = p) ∧
    (pyInStr phrase p = false → applyStyleToPrompt (some s) p = p ++ ", " ++ phrase) ∧
    applyStyleToPrompt (some s) (applyStyleToPrompt (some s) p)
      = applyStyleToPrompt (some s) p := by
  obtain ⟨g, hg⟩ := guidance_of_style_phrase h
  have happ : ∀ q : String,
      applyStyleToPrompt (some s) q = if pyInStr phrase q then q else q ++ ", " ++ phrase := by
    intro q
    simp [applyStyleToPrompt, hg, h]
  have hcontains : ∀ q : String, pyInStr phrase (q ++ ", " ++ phrase) = true := by
    intro q
    unfold pyInStr lowerChars
    rw [String.data_append, String.data_append, List.map_append, List.map_append]
    have := hasInfix_append (phrase.data.map Char.toLower)
      (q.data.map Char.toLower ++ (", ").data.map Char.toLower) []
    simpa using this
  refine ⟨fun hin => by simp [happ, hin], fun hout => by simp [happ, hout], ?_⟩
  by_cases hin : pyInStr phrase p = true
  · simp [happ, hin]
  · have hout : pyInStr phrase p = false := by simpa using hin
    rw [happ p, if_neg (by simp [hout]), happ (p ++ ", " ++ phrase), if_pos (hcontains p)]

/-- C5 witness: rebuilding an already styled prompt is a fixed point. -/
theorem c5_style_phrase_idempotent_witness :
    applyStyleToPrompt (some "cinematic") (applyStyleToPrompt (some "cinematic") "a fox")
      = applyStyleToPrompt (some "cinematic") "a fox" :=
  (c5_style_phrase_idempotent "a fox" "cinematic" "cinematic lighting" (by decide)).2.2

/-- C6: the documented example input produces exactly the documented payload:
landscape dimensions, fifty steps, guidance seven, and the prompt rewritten
with the cinematic phrase. -/
theorem c6_example_payload :
    buildPayload "a red fox" none (some "cinematic") "16:9" "hd" =
      { prompt := "a red fox, cinematic lighting", negative_prompt := none,
        sampleCount := 1, steps := some 50, height := 576, width := 1024,
        guidance_scale := 7.0 } := rfl

/-- C7 counterexample: the texture-generation variant sends an empty
parameters object, so its request carries no sample count at all. -/
theorem c7_sample_count_counterexample :
    bodyParamLookup (textureRequestBody "wood texture") "sampleCount" = none := rfl

/-- C7 amended: the main application request builder always sets the sample
count to one, while the texture-generation variant sends an empty parameters
object without a sample count. -/
theorem c7_sample_count_amended (p : String) (np sp : Option String) (ar q pt : String) :
    (buildPayload p np sp ar q).sampleCount = 1 ∧
    bodyParamLookup (textureRequestBody pt) "sampleCount" = none :=
  ⟨rfl, rfl⟩

/-- C2 counterexample: a first prediction that is an object with none of the
known fields does not produce the extraction (shape-mismatch) failure; it is
passed to the decode step and the pipeline reports the processing failure,
which is a different error. -/
theorem c2_extraction_counterexample :
    texturePipeline [("predictions", Json.arr [Json.obj [("foo", Json.str "bar")]])]
        = Except.error TexErr.processError ∧
      TexErr.processError ≠ TexErr.shapeError :=
  ⟨rfl, by decide⟩

/-- C2 amended: the texture extractor tolerates the direct base64 field, the
alternative direct field, the nested image-object field and a prediction
that is itself the string; a body with a missing or empty predictions value
fails with the shape-mismatch error; the decode step never yields the
shape-mismatch error; but a prediction object with none of the known fields
is passed through and fails only at the decode step, with the distinct
processing error. -/
theorem c2_extraction_amended (s : String) (rest : List Json)
    (extra fields : List (String × Json)) (v : Json) :
    (extractImageData [("predictions",
        Json.arr (Json.obj (("bytesBase64Encoded", Json.str s) :: extra) :: rest))]
      = Except.ok (Json.str s)) ∧
    (extractImageData [("predictions", Json.arr (Json.obj [("imageBytes", Json.str s)] :: rest))]
      = Except.ok (Json.str s)) ∧
    (extractImageData [("predictions",
        Json.arr (Json.obj [("image", Json.obj (("bytesBase64Encoded", Json.str s) :: extra))] :: rest))]
      = Except.ok (Json.str s)) ∧
    (extractImageData [("predictions", Json.arr (Json.str s :: rest))] = Except.ok (Json.str s)) ∧
    (extractImageData [] = Except.error TexErr.shapeError) ∧
    (extractImageData [("predictions", Json.arr [])] = Except.error TexErr.shapeError) ∧
    (decodeTexture v ≠ Except.error TexErr.shapeError) ∧
    (lookupField fields "bytesBase64Encoded" = none →
     lookupField fields "imageBytes" = none →
     lookupField fields "image" = none →
      extractImageData [("predictions", Json.arr [Json.obj fields])]
          = Except.ok (Json.obj fields) ∧
        decodeTexture (Json.obj fields) = Except.error TexErr.processError) := by
  refine ⟨rfl, rfl, rfl, rfl, rfl, rfl, ?_, ?_⟩
  · cases v with
    | str s =>
      cases h : b64decode s <;> simp [decodeTexture, h]
    | num n => simp [decodeTexture]
    | bool b => simp [decodeTexture]
    | null => simp [decodeTexture]
    | arr l => simp [decodeTexture]
    | obj l => simp [decodeTexture]
  · intro h1 h2 h3
    constructor
    · simp [extractImageData, lookupField, pyTruthy, h1, h2, h3]
    · rfl

/-- C2 witness: a prediction object carrying only an unknown field is passed
through by the extractor and rejected by the decode step. -/
theorem c2_extraction_amended_witness :
    extractImageData [("predictions", Json.arr [Json.obj [("other", Json.num 3)]])]
        = Except.ok (Json.obj [("other", Json.num 3)]) ∧
      decodeTexture (Json.obj [("other", Json.num 3)]) = Except.error TexErr.processError :=
  (c2_extraction_amended "QUJD" [] [] [("other", Json.num 3)] Json.null).2.2.2.2.2.2.2
    (by rfl) (by rfl) (by rfl)

/-- C3 counterexample: a body whose safety attributes mark it filtered but
which still carries a non-empty predictions list is processed as a normal
success, not as the distinguished safety-filter failure. -/
theorem c3_safety_filter_counterexample :
    isSafetyFilterError (processGenerateResponse
        [("predictions", Json.arr [Json.obj [("bytesBase64Encoded", Json.str "")]]),
         ("safetyAttributes", Json.obj [("filtered", Json.bool true)])]) = false ∧
      processGenerateResponse
        [("predictions", Json.arr [Json.obj [("bytesBase64Encoded", Json.str "")]]),
         ("safetyAttributes", Json.obj [("filtered", Json.bool true)])] = GenResult.ok [] :=
  ⟨by decide, rfl⟩

/-- C3 amended: when the body carries no truthy predictions value and its
safety attributes object marks it filtered, the pipeline answers with the
distinguished error message containing the safety-filter phrase. -/
theorem c3_safety_filter_amended (body sa : List (String × Json))
    (h1 : predictionsTruthy body = false)
    (h2 : lookupField body "safetyAttributes" = some (Json.obj sa))
    (h3 : pyTruthy ((lookupField sa "filtered").getD (Json.bool false)) = true) :
    isSafetyFilterError (processGenerateResponse body) = true := by
  unfold processGenerateResponse
  rw [h1, h2]
  simp only [h3, if_true, if_pos rfl]
  show hasInfix ("blocked by safety filters").data
    ("Generation blocked by safety filters (Reason: "
      ++ pyStr ((lookupField sa "reason").getD (Json.str "Unknown"))
      ++ "). Please modify your prompt.").data = true
  refine hasInfix_of_eq _ _ ("Generation ").data
    ((" (Reason: ").data
      ++ (pyStr ((lookupField sa "reason").getD (Json.str "Unknown"))).data
      ++ ("). Please modify your prompt.").data) ?_
  rw [String.data_append, String.data_append]
  rw [show ("Generation blocked by safety filters (Reason: ").data
      = ("Generation ").data ++ ("blocked by safety filters").data ++ (" (Reason: ").data
    from rfl]
  simp [List.append_assoc]

/-- C3 witness: a filtered body without predictions yields the
safety-filter error. -/
theorem c3_safety_filter_amended_witness :
    isSafetyFilterError (processGenerateResponse
      [("safetyAttributes", Json.obj [("filtered", Json.bool true)])]) = true :=
  c3_safety_filter_amended [("safetyAttributes", Json.obj [("filtered", Json.bool true)])]
    [("filtered", Json.bool true)] (by decide) (by rfl) (by decide)

/-- C4 counterexample: with two metadata entries carrying the deleted
filename, the deletion removes both (the document goes from two entries to
none), not exactly one. -/
theorem c4_delete_counterexample :
    deleteImage ⟨["a.png"], some [[("filename", Json.str "a.png")],
        [("filename", Json.str "a.png")]]⟩ "a.png"
      = (⟨[], some []⟩, 200) := rfl

/-- C4 amended: deleting a filename without a file answers 404 and leaves
the state unchanged; deleting an existing file removes it and rewrites a
present metadata document keeping exactly the entries whose filename
differs, so the number of removed entries equals the number of matching
entries (exactly one only when the document holds at most one match); an
absent or corrupt document is left alone. -/
theorem c4_delete_amended (st : GalleryState) (fn : String) (hfn : fn.isEmpty = false) :
    (st.files.contains fn = false → deleteImage st fn = (st, 404)) ∧
    (∀ md, st.metadata = some md → st.files.contains fn = true →
      deleteImage st fn = (⟨st.files.erase fn, some (md.filter (keepEntry fn))⟩, 200) ∧
      md.length = (md.filter (keepEntry fn)).length
        + (md.filter (fun i => !keepEntry fn i)).length) ∧
    (st.metadata = none → st.files.contains fn = true →
      deleteImage st fn = (⟨st.files.erase fn, none⟩, 200)) := by
  refine ⟨?_, ?_, ?_⟩
  · intro h
    have h' : ¬fn ∈ st.files := by simpa using h
    simp [deleteImage, hfn, h, h']
  · intro md hmd h
    have h' : fn ∈ st.files := by simpa using h
    refine ⟨?_, length_filter_split _ _⟩
    simp [deleteImage, hfn, h, h', hmd]
  · intro hmd h
    have h' : fn ∈ st.files := by simpa using h
    simp [deleteImage, hfn, h, h', hmd]

/-- C4 witness: deleting a present file removes its metadata entry; deleting
an absent file answers 404 unchanged. -/
theorem c4_delete_amended_witness :
    deleteImage ⟨["b.png"], some [[("filename", Json.str "b.png")]]⟩ "b.png"
        = (⟨[], some []⟩, 200) ∧
      deleteImage ⟨["b.png"], some [[("filename", Json.str "b.png")]]⟩ "zzz.png"
        = (⟨["b.png"], some [[("filename", Json.str "b.png")]]⟩, 404) :=
  ⟨((c4_delete_amended ⟨["b.png"], some [[("filename", Json.str "b.png")]]⟩ "b.png"
      (by decide)).2.1 [[("filename", Json.str "b.png")]] rfl (by decide)).1,
    (c4_delete_amended ⟨["b.png"], some [[("filename", Json.str "b.png")]]⟩ "zzz.png"
      (by decide)).1 (by decide)⟩

/-- C8: for every decoded image with byte-valued alpha, flattening onto the
opaque white background makes every pixel fully opaque, and the final
converted image written by the texture persister is fully opaque as well. -/
theorem c8_texture_flatten_opaque (img : List (List Pixel))
    (h : validAlphaImage img = true) :
    allOpaque (compositeOnWhite img) = true ∧ allOpaque (finalTextureImage img) = true := by
  have key : ∀ p : Pixel, p.a ≤ 255 → (compositePixel whitePixel p).a = 255 := by
    intro p hp
    unfold compositePixel whitePixel
    simp only
    have hblend : (255 : Nat) * (255 - p.a) / 255 = 255 - p.a :=
      Nat.mul_div_cancel_left _ (by norm_num)
    rw [hblend, Nat.add_sub_cancel' hp]
    simp
  have hvalid := (List.all_eq_true).mp h
  constructor
  · refine (List.all_eq_true).mpr ?_
    intro row hrow
    obtain ⟨row0, hrow0, hmap⟩ := List.mem_map.mp hrow
    subst hmap
    refine (List.all_eq_true).mpr ?_
    intro p hp
    obtain ⟨p0, hp0, hmape⟩ := List.mem_map.mp hp
    subst hmape
    have hb := (List.all_eq_true).mp (hvalid row0 hrow0) p0 hp0
    simp [key p0 (of_decide_eq_true hb)]
  · refine (List.all_eq_true).mpr ?_
    intro row hrow
    obtain ⟨row0, hrow0, hmap⟩ := List.mem_map.mp hrow
    subst hmap
    refine (List.all_eq_true).mpr ?_
    intro p hp
    obtain ⟨p0, hp0, hmape⟩ := List.mem_map.mp hp
    subst hmape
    simp [toRGB]

/-- C8 witness: a small image with transparent pixels becomes fully
opaque through the normalization path. -/
theorem c8_texture_flatten_opaque_witness :
    allOpaque (compositeOnWhite [[⟨10, 20, 30, 0⟩, ⟨0, 0, 0, 128⟩]]) = true ∧
    allOpaque (finalTextureImage [[⟨10, 20, 30, 0⟩, ⟨0, 0, 0, 128⟩]]) = true :=
  c8_texture_flatten_opaque [[⟨10, 20, 30, 0⟩, ⟨0, 0, 0, 128⟩]] (by decide)

/-- C9 counterexample: the texture service writes to the caller-supplied
path, so a second write to the same name replaces the existing file instead
of creating a new one. -/
theorem c9_persist_counterexample :
    writeFile [("static/generated/t.png", [1])] "static/generated/t.png" [2]
      = [("static/generated/t.png", [2])] := rfl

/-- C9 amended: when the destination name is not already present (as with
the generated unique names of the main application), a write appends exactly
one new file and every existing file survives unchanged; the texture
endpoints write to a caller-chosen name, which overwrites on collision. -/
theorem c9_persist_amended (store : FileStore) (name : String) (bytes : List Nat)
    (h : hasFile store name = false) :
    writeFile store name bytes = store ++ [(name, bytes)] ∧
    (writeFile store name bytes).length = store.length + 1 ∧
    ∀ e ∈ store, e ∈ writeFile store name bytes := by
  have hw : writeFile store name bytes = store ++ [(name, bytes)] := by
    simp [writeFile, h]
  refine ⟨hw, by simp [hw], ?_⟩
  intro e he
  rw [hw]
  exact List.mem_append_left _ he

/-- C9 witness: a write to a fresh name appends exactly that file. -/
theorem c9_persist_amended_witness :
    writeFile [("x.png", [0])] "a.png" [7] = [("x.png", [0])] ++ [("a.png", [7])] :=
  (c9_persist_amended [("x.png", [0])] "a.png" [7] (by decide)).1

/-- C10 counterexample: the earlier near-duplicate texture endpoint passes
the caller prompt to the generation call verbatim, with no suffix. -/
theorem c10_texture_prompt_counterexample :
    generateTextureCodePy "wood" "t.png"
      = TexResponse.sendRequest "wood" "static/generated/t.png" := rfl

/-- C10 amended: the texture-generator endpoint transmits the caller prompt
with the fixed suffix appended, so the caller prompt is a proper pre-segment
of the transmitted prompt; the earlier near-duplicate endpoint transmits the
caller prompt verbatim. -/
theorem c10_texture_prompt_amended (p fn : String)
    (hp : p.isEmpty = false) (hfn : fn.isEmpty = false)
    (hv : validTextureFilename fn = true) :
    generateTexture p fn
        = TexResponse.sendRequest (p ++ textureSuffix) ("static/generated/" ++ fn) ∧
    p.data.isPrefixOf (p ++ textureSuffix).data = true ∧
    p ++ textureSuffix ≠ p ∧
    generateTextureCodePy p fn
        = TexResponse.sendRequest p ("static/generated/" ++ fn) := by
  refine ⟨?_, ?_, ?_, ?_⟩
  · simp [generateTexture, hp, hfn, hv, enhanceTexturePrompt]
  · rw [String.data_append]
    exact isPrefixOf_append_self _ _
  · intro heq
    have hlen := congrArg String.length heq
    rw [String.length_append] at hlen
    have hs : textureSuffix.length ≠ 0 := by decide
    omega
  · simp [generateTextureCodePy, hp, hfn, hv]

/-- C10 witness: a concrete valid request is transmitted with the suffix
appended. -/
theorem c10_texture_prompt_amended_witness :
    generateTexture "wood" "t.png"
      = TexResponse.sendRequest ("wood" ++ textureSuffix) ("static/generated/" ++ "t.png") :=
  (c10_texture_prompt_amended "wood" "t.png" (by decide) (by decide) (by decide)).1
